import Mathlib

/-!
Shallow embedding of `src/python/api_to_bigquery.py` (class `APIToBigQueryPipeline`).

Conventions used throughout:
* Instants (`datetime`) are modelled as integers counting microseconds, the
  resolution of Python's `datetime`/`timedelta`.  `timedelta(days=1)` is
  `oneDay = 86400000000` microseconds, `timedelta(hours=1)` is
  `oneHour = 3600000000`.
* Python's floor division `//` and `timedelta.days` are `Int.fdiv`;
  `int(x)` truncation toward zero on `total_seconds() / 3600` is `Int.tdiv`
  (written below at the one place it occurs).
* The upstream server is an oracle (`Api`): `probe` gives the value that
  `get_estimated_count` returns for a window (none = the probe failed and the
  function returned `None`), and `page` gives the outcome of one paginated
  POST issued by `fetch_data_from_api` for a window and offset.
* Loops that the Python code cannot bound (the mutual recursion between
  `fetch_data_from_api` and `handle_response_too_large_error`, and the
  `request_with_retry` loop, which spins on status codes >= 600) are embedded
  with explicit fuel; a `none` result means the fuel ran out, i.e. the Python
  code is still recursing at that point.  Loops the code does bound (the two
  binary searches, pagination) receive fuel provably larger than their
  iteration count, so the fuel case is unreachable for them.
-/

namespace Pipeline

/-- `timedelta(days=1)` in microseconds. -/
def oneDay : Int := 86400000000

/-- `timedelta(hours=1)` in microseconds. -/
def oneHour : Int := 3600000000

/-- `self.max_records_per_period = 1500` (line 84). -/
def max_records_per_period : Int := 1500

/-- `self.batch_size = 100000` (line 83). -/
def batch_size : Nat := 100000

/-- `page_size = 20` (line 635). -/
def page_size : Nat := 20

/-- `max_pages = 100` (line 638). -/
def max_pages : Nat := 100

/-- Outcome of one paginated POST request made by `fetch_data_from_api`
(lines 681-697): either a `hits` array (already flattened to the appended
records: `hit['data']` when present, else `hit` itself; an absent or empty
`hits` key is the empty list), or the `ResponseEntityTooLargeError` raised
by `request_with_retry`, or any other exception escaping the request. -/
inductive PageResult (ρ : Type) : Type
  | hits (l : List ρ)
  | etl
  | fail
deriving DecidableEq

/-- The upstream server as an oracle: `probe from to` is the value returned
by `get_estimated_count` for the window, `page from to offset` the outcome of
one page fetch.  (An aborting `401` probe raises instead of returning and is
therefore outside this oracle; the claims about the planner quantify over its
returned values.) -/
structure Api (ρ : Type) : Type where
  probe : Int → Int → Option Int
  page : Int → Int → Nat → PageResult ρ

/-- The day-grain binary-search loop of `find_optimal_period_end`
(lines 266-302), fuelled.  One fuel unit is one evaluation of the
`while left_days <= right_days` guard; the caller passes more fuel than the
loop can iterate, so the `0` case is never reached. -/
def daySearchGo (api : Api ρ) (start_date max_end_date target : Int) :
    Nat → Int → Int → Int → Int
  | 0, _, _, optimal_end => optimal_end
  | fuel + 1, left_days, right_days, optimal_end =>
    if left_days ≤ right_days then
      let mid_days := Int.fdiv (left_days + right_days) 2
      let test_end := min (start_date + mid_days * oneDay) max_end_date
      match api.probe start_date test_end with
      | none =>
        daySearchGo api start_date max_end_date target fuel left_days (mid_days - 1) optimal_end
      | some estimated_count =>
        if estimated_count ≤ target then
          daySearchGo api start_date max_end_date target fuel (mid_days + 1) right_days test_end
        else
          daySearchGo api start_date max_end_date target fuel left_days (mid_days - 1) optimal_end
    else optimal_end

/-- The day-grain part of `find_optimal_period_end` (lines 266-302):
`left_days = 1`, `right_days = (max_end_date - start_date).days + 1`,
`optimal_end = start_date + timedelta(days=1)`.  The loop shrinks
`right_days - left_days` every iteration, so `right_days.toNat + 2` units of
fuel are more than it can consume. -/
def find_optimal_period_by_day (api : Api ρ) (start_date max_end_date target : Int) : Int :=
  let right_days := Int.fdiv (max_end_date - start_date) oneDay + 1
  daySearchGo api start_date max_end_date target (right_days.toNat + 2) 1 right_days
    (start_date + oneDay)

/-- The hour-grain binary-search loop of `find_optimal_period_by_hour`
(lines 335-361), fuelled like `daySearchGo`. -/
def hourSearchGo (api : Api ρ) (start_date max_end_date target : Int) :
    Nat → Int → Int → Int → Int
  | 0, _, _, optimal_end => optimal_end
  | fuel + 1, left_hours, right_hours, optimal_end =>
    if left_hours ≤ right_hours then
      let mid_hours := Int.fdiv (left_hours + right_hours) 2
      let test_end := min (start_date + mid_hours * oneHour) max_end_date
      match api.probe start_date test_end with
      | none =>
        hourSearchGo api start_date max_end_date target fuel left_hours (mid_hours - 1) optimal_end
      | some estimated_count =>
        if estimated_count ≤ target then
          hourSearchGo api start_date max_end_date target fuel (mid_hours + 1) right_hours test_end
        else
          hourSearchGo api start_date max_end_date target fuel left_hours (mid_hours - 1) optimal_end
    else optimal_end

/-- `find_optimal_period_by_hour` (lines 304-367):
`total_hours = int((max_end_date - start_date).total_seconds() / 3600)`
(truncation toward zero, `Int.tdiv` on microseconds), `left_hours = 1`,
`right_hours = total_hours`, `optimal_end = start_date + timedelta(hours=1)`. -/
def find_optimal_period_by_hour (api : Api ρ) (start_date max_end_date target : Int) : Int :=
  let total_hours := Int.tdiv (max_end_date - start_date) oneHour
  hourSearchGo api start_date max_end_date target (total_hours.toNat + 2) 1 total_hours
    (start_date + oneHour)

/-- `find_optimal_period_end` (lines 223-302).  The one-day pre-check
(lines 249-261): `one_day_end = min(start_date + 1 day, max_end_date)`; the
Python guard `if one_day_count and one_day_count > target_max_records` is
truthiness on an `Optional[int]`, i.e. it requires the count to be present,
nonzero and above the target; otherwise the day-grain search runs. -/
def find_optimal_period_end (api : Api ρ) (start_date max_end_date target_max_records : Int) :
    Int :=
  let one_day_end := min (start_date + oneDay) max_end_date
  match api.probe start_date one_day_end with
  | some one_day_count =>
    if one_day_count ≠ 0 ∧ target_max_records < one_day_count then
      find_optimal_period_by_hour api start_date one_day_end target_max_records
    else
      find_optimal_period_by_day api start_date max_end_date target_max_records
  | none => find_optimal_period_by_day api start_date max_end_date target_max_records

/-- Result of a (fuelled) run of the fetch engine: the first component is
`none` when the fuel ran out (the Python code is still recursing), otherwise
`Except.error ()` for an exception propagating out of the call
(`raise` at line 724 or anything else escaping) and `Except.ok` for the
returned record list.  The second component instruments the run with the
maximum number of simultaneously nested `handle_response_too_large_error`
frames it reached; it does not influence any returned value. -/
abbrev FetchResult (ρ : Type) : Type := Option (Except Unit (List ρ)) × Nat

mutual

/-- `fetch_data_from_api` (lines 578-726).  With `use_adaptive_period`, the
planner runs first; if `optimal_end < to_date` the two sub-windows are
fetched recursively and concatenated (lines 609-622), otherwise
`to_date = optimal_end` (line 625, which can move `to_date` forward) and the
pagination loop runs.  Exceptions from the recursive calls propagate (there
is no `try` around them). -/
def fetch_data_from_api (api : Api ρ) : Nat → Int → Int → Bool → FetchResult ρ
  | 0, _, _, _ => (none, 0)
  | fuel + 1, from_date, to_date, use_adaptive_period =>
    if use_adaptive_period then
      let optimal_end := find_optimal_period_end api from_date to_date max_records_per_period
      if optimal_end < to_date then
        match fetch_data_from_api api fuel from_date optimal_end true with
        | (none, d1) => (none, d1)
        | (some (Except.error e), d1) => (some (Except.error e), d1)
        | (some (Except.ok first_half), d1) =>
          match fetch_data_from_api api fuel optimal_end to_date true with
          | (none, d2) => (none, max d1 d2)
          | (some (Except.error e), d2) => (some (Except.error e), max d1 d2)
          | (some (Except.ok second_half), d2) =>
            (some (Except.ok (first_half ++ second_half)), max d1 d2)
      else paginateGo api fuel from_date optimal_end 1 0 []
    else paginateGo api fuel from_date to_date 1 0 []

/-- The pagination loop of `fetch_data_from_api` (lines 646-724): pages run
while `page < max_pages` with `page += 1` at the top, i.e. for page numbers
1..100; an empty (or missing) `hits` ends with the accumulated data; fewer
than `page_size` hits ends after accumulating; a
`ResponseEntityTooLargeError` delegates the whole current window to
`handle_response_too_large_error` with its `retry_count` argument left at
its default `0` (line 718), discarding `all_data`; any other error
propagates (line 724). -/
def paginateGo (api : Api ρ) : Nat → Int → Int → Nat → Nat → List ρ → FetchResult ρ
  | 0, _, _, _, _, _ => (none, 0)
  | fuel + 1, from_date, to_date, page, offset, all_data =>
    if page ≤ max_pages then
      match api.page from_date to_date offset with
      | PageResult.etl => handle_response_too_large_error api fuel from_date to_date 0
      | PageResult.fail => (some (Except.error ()), 0)
      | PageResult.hits l =>
        if l.length = 0 then (some (Except.ok all_data), 0)
        else if l.length < page_size then (some (Except.ok (all_data ++ l)), 0)
        else paginateGo api fuel from_date to_date (page + 1) (offset + l.length) (all_data ++ l)
    else (some (Except.ok all_data), 0)

/-- `handle_response_too_large_error` (lines 482-576).  At
`retry_count >= 5` it returns `[]` (lines 505-509).  Otherwise it splits the
window at `mid_date = from_date + (to_date - from_date) / 2` (timedelta
halving; microsecond flooring) and fetches both halves through
`fetch_data_from_api` with `use_adaptive_period` at its default `True`.  If
either half raises, the `except` block retries the same window with
`retry_count + 1` while `retry_count < max_retries - 1 = 4`, else returns
`[]` (lines 564-574).  The depth instrument adds one for this frame. -/
def handle_response_too_large_error (api : Api ρ) : Nat → Int → Int → Nat → FetchResult ρ
  | 0, _, _, _ => (none, 0)
  | fuel + 1, from_date, to_date, retry_count =>
    if 5 ≤ retry_count then (some (Except.ok []), 1)
    else
      let mid_date := from_date + Int.fdiv (to_date - from_date) 2
      match fetch_data_from_api api fuel from_date mid_date true with
      | (none, d1) => (none, d1 + 1)
      | (some (Except.error _), d1) =>
        if retry_count < 4 then
          match handle_response_too_large_error api fuel from_date to_date (retry_count + 1) with
          | (r, d2) => (r, max (d1 + 1) (d2 + 1))
        else (some (Except.ok []), d1 + 1)
      | (some (Except.ok first_half_data), d1) =>
        match fetch_data_from_api api fuel mid_date to_date true with
        | (none, d2) => (none, max d1 d2 + 1)
        | (some (Except.error _), d2) =>
          if retry_count < 4 then
            match handle_response_too_large_error api fuel from_date to_date (retry_count + 1) with
            | (r, d3) => (r, max (max d1 d2 + 1) (d3 + 1))
          else (some (Except.ok []), max d1 d2 + 1)
        | (some (Except.ok second_half_data), d2) =>
          (some (Except.ok (first_half_data ++ second_half_data)), max d1 d2 + 1)

end

/-- Outcome of one physical HTTP attempt inside `request_with_retry`
(lines 398-477): a response with its status code and whether its body
contains the text `"Response Entity Too Large"`, or a
`requests.exceptions.Timeout`, or a `requests.exceptions.ConnectionError`. -/
inductive Attempt : Type
  | resp (status : Nat) (etlBody : Bool)
  | timeout
  | connErr
deriving DecidableEq

/-- The exceptions `request_with_retry` can raise, one constructor per
`raise` site (lines 415, 418, 421, 425, 432, 448, 462, 473). -/
inductive ReqErr : Type
  | authError
  | forbidden
  | badRequest
  | clientError
  | entityTooLarge
  | serverError
  | timeoutError
  | connectionError
deriving DecidableEq

/-- The `while retry_count <= max_retries` loop of `request_with_retry`
(lines 398-477), with `max_retries = 3`.  `attempts` counts requests issued
so far (the oracle `outcomes` maps the attempt index to its outcome) and
`waits` records each `time.sleep(wait_time)` before a retry, in seconds.
`retry_count` only ever grows to 3, so the loop guard stays true and the
line-480 `raise` is unreachable; for a status `>= 600` the
`response.raise_for_status()` at line 451 raises nothing and the loop spins
without touching `retry_count`, hence the fuel (a `none` result means the
Python loop is still spinning).  Success returns the index of the winning
attempt. -/
def requestGo (outcomes : Nat → Attempt) :
    Nat → Nat → Nat → Nat → List Nat → Option (Except ReqErr Nat × Nat × List Nat)
  | 0, _, _, _, _ => none
  | fuel + 1, attempt, retry_count, wait_time, waits =>
    match outcomes attempt with
    | Attempt.resp status etlBody =>
      if status < 400 then some (Except.ok attempt, attempt + 1, waits)
      else if status < 500 then
        if status = 401 then some (Except.error ReqErr.authError, attempt + 1, waits)
        else if status = 403 then some (Except.error ReqErr.forbidden, attempt + 1, waits)
        else if status = 400 then some (Except.error ReqErr.badRequest, attempt + 1, waits)
        else some (Except.error ReqErr.clientError, attempt + 1, waits)
      else if status < 600 then
        if status = 500 ∧ etlBody = true then
          some (Except.error ReqErr.entityTooLarge, attempt + 1, waits)
        else if retry_count < 3 then
          requestGo outcomes fuel (attempt + 1) (retry_count + 1) (wait_time * 2)
            (waits ++ [wait_time])
        else some (Except.error ReqErr.serverError, attempt + 1, waits)
      else requestGo outcomes fuel (attempt + 1) retry_count wait_time waits
    | Attempt.timeout =>
      if retry_count < 3 then
        requestGo outcomes fuel (attempt + 1) (retry_count + 1) (wait_time * 2)
          (waits ++ [wait_time])
      else some (Except.error ReqErr.timeoutError, attempt + 1, waits)
    | Attempt.connErr =>
      if retry_count < 3 then
        requestGo outcomes fuel (attempt + 1) (retry_count + 1) (wait_time * 2)
          (waits ++ [wait_time])
      else some (Except.error ReqErr.connectionError, attempt + 1, waits)

/-- `request_with_retry` (lines 369-480) with its defaults
`max_retries = 3`, `initial_wait = 2`: the loop starts at
`retry_count = 0`, `wait_time = 2`. -/
def request_with_retry (outcomes : Nat → Attempt) (fuel : Nat) :
    Option (Except ReqErr Nat × Nat × List Nat) :=
  requestGo outcomes fuel 0 0 2 []

/-- Outcome of the single GET issued by `get_estimated_count`
(lines 197-221) after `raise_for_status`: a JSON body (with the optional
`total` field and the length of the `data` field, which defaults to `[]`),
an `HTTPError` with its status code, or any other exception (connection
failure, JSON decode, ...). -/
inductive ProbeHttp : Type
  | okJson (total : Option Int) (dataLen : Nat)
  | httpError (status : Nat)
  | otherFailure
deriving DecidableEq

/-- `get_estimated_count` (lines 160-221):
`result.get('total', len(result.get('data', [])))` on success; on an
`HTTPError` with status 401 it re-raises (`Except.error ()`), on any other
`HTTPError` and on any other exception it returns `None`. -/
def get_estimated_count : ProbeHttp → Except Unit (Option Int)
  | ProbeHttp.okJson total dataLen => Except.ok (some (total.getD (dataLen : Int)))
  | ProbeHttp.httpError status =>
    if status = 401 then Except.error () else Except.ok none
  | ProbeHttp.otherFailure => Except.ok none

/-- The camelCase-to-snake_case fallback of `process_column_mapping`
(line 751): `re.sub(r'(?<!^)(?=[A-Z])', '_', key).lower()` inserts `_`
before every ASCII uppercase letter not at position 0 and lowercases
everything, rendered as a character walk. -/
def camelChars : Bool → List Char → List Char
  | _, [] => []
  | isFirst, c :: rest =>
    if c.isUpper ∧ isFirst = false then '_' :: c.toLower :: camelChars false rest
    else c.toLower :: camelChars false rest

/-- String version of `camelChars`, applied to the whole key. -/
def camelToSnake (s : String) : String := String.mk (camelChars true s.data)

/-- The destination key for one source key (lines 745-751): the mapping
entry when the key is present, the camelCase fallback otherwise. -/
def mappedKey (column_mapping : List (String × String)) (key : String) : String :=
  match column_mapping.lookup key with
  | some mapped => mapped
  | none => camelToSnake key

/-- Insertion into a Python dict rendered on an association list: an
existing key keeps its position and gets the new value, a new key is
appended. -/
def dictInsert : List (String × α) → String → α → List (String × α)
  | [], key, v => [(key, v)]
  | (k', v') :: rest, key, v =>
    if k' = key then (key, v) :: rest else (k', v') :: dictInsert rest key v

/-- The per-record loop of `process_column_mapping` (lines 743-753):
`mapped_record = {}` then `mapped_record[mapped_key] = value` for each
`key, value` in the record, in iteration order. -/
def processRecord (column_mapping : List (String × String)) (record : List (String × α)) :
    List (String × α) :=
  record.foldl (fun mapped_record kv => dictInsert mapped_record (mappedKey column_mapping kv.1) kv.2) []

/-- `process_column_mapping` (lines 728-757).  `if not self.column_mapping:
return data` - an empty mapping dict is falsy, so the data passes through
untouched; otherwise every record is rebuilt with mapped keys. -/
def process_column_mapping (column_mapping : List (String × String))
    (data : List (List (String × α))) : List (List (String × α)) :=
  if column_mapping = [] then data else data.map (processRecord column_mapping)

/-- The keys of one record, in order. -/
def recordKeys (record : List (String × α)) : List String := record.map Prod.fst

/-- The column set of `pd.DataFrame(rows)`: the union of the record key
sets in first-appearance order. -/
def columnsUnion (rows : List (List (String × α))) : List String :=
  rows.foldl (fun cols record => cols ++ (recordKeys record).filter (fun k => decide (k ∉ cols))) []

/-- `df[name] = value` at column level: an existing column is overwritten
in place, a new one is appended. -/
def addColumn (cols : List String) (name : String) : List String :=
  if name ∈ cols then cols else cols ++ [name]

/-- The columns of the DataFrame that `upload_batch_to_bigquery`
(lines 759-836) loads into BigQuery: `process_column_mapping` then
`pd.DataFrame`; the per-column datetime/numeric coercions and the null
replacement (lines 784-797) rewrite values of existing columns and add or
remove none. -/
def upload_batch_columns (column_mapping : List (String × String))
    (batch_data : List (List (String × α))) : List String :=
  columnsUnion (process_column_mapping column_mapping batch_data)

/-- The columns of the DataFrame returned by `validate_data`
(lines 838-889): the mapped columns, the value coercions and
`drop_duplicates` (which change no columns), then
`df['_loaded_at'] = datetime.now()` and
`df['_pipeline_version'] = '1.0.0'` (lines 886-887). -/
def validate_data_columns (column_mapping : List (String × String))
    (data : List (List (String × α))) : List String :=
  addColumn (addColumn (columnsUnion (process_column_mapping column_mapping data)) "_loaded_at")
    "_pipeline_version"

/-- A server whose count probe always reports 0 records and whose every page
fetch fails with `Response Entity Too Large`. -/
def etlApi : Api Nat := ⟨fun _ _ => some 0, fun _ _ _ => PageResult.etl⟩

/-- A server whose count probe always fails, i.e. `get_estimated_count`
always returns `None`. -/
def probeNoneApi : Api Nat := ⟨fun _ _ => none, fun _ _ _ => PageResult.hits []⟩

/-- A server whose count probe always reports 10000 records (above the
1500 ceiling) and whose page fetches return no hits. -/
def bigProbeApi : Api Nat := ⟨fun _ _ => some 10000, fun _ _ _ => PageResult.hits []⟩

/-- A server whose count probe fails exactly on windows ending at
microsecond 86400000000 (= start + 1 day for start 0) and reports 100
records on every other window. -/
def flakyProbeApi : Api Nat :=
  ⟨fun _ to_date => if to_date = 86400000000 then none else some 100,
   fun _ _ _ => PageResult.hits []⟩

/-- One step of the batch loop of `run_pipeline` (lines 1017-1033): append
the record to `batch_data`; when `len(batch_data) >= self.batch_size`,
upload (recording the flushed size) and `batch_data.clear()`.  The state is
the buffer together with the sizes of the flushes initiated so far. -/
def batchStep (B : Nat) (st : List ρ × List Nat) (record : ρ) : List ρ × List Nat :=
  let batch_data := st.1 ++ [record]
  if B ≤ batch_data.length then ([], st.2 ++ [batch_data.length]) else (batch_data, st.2)

/-- The whole batch loop of `run_pipeline` over the fetched records,
starting from an empty buffer; the final state's buffer is the residual
batch flushed after the loop (lines 1036-1042). -/
def run_pipeline_batches (B : Nat) (raw_data : List ρ) : List ρ × List Nat :=
  raw_data.foldl (batchStep B) ([], [])

/-! ### Helper lemmas -/

/-- The day-grain search never returns more than any bound that dominates
both `max_end_date` and the running `optimal_end`: the only updates record
`test_end = min (start + mid days) max_end_date ≤ max_end_date`. -/
theorem daySearchGo_le (api : Api ρ) (s maxE t K : Int) (hK : maxE ≤ K) :
    ∀ (fuel : Nat) (l r opt : Int), opt ≤ K → daySearchGo api s maxE t fuel l r opt ≤ K := by
  intro fuel
  induction fuel with
  | zero => intro l r opt h; simpa [daySearchGo] using h
  | succ n ih =>
    intro l r opt h
    simp only [daySearchGo]
    by_cases hlr : l ≤ r
    · simp only [if_pos hlr]
      cases hp : api.probe s (min (s + Int.fdiv (l + r) 2 * oneDay) maxE) with
      | none => exact ih _ _ _ h
      | some c =>
        by_cases hc : c ≤ t
        · simp only [if_pos hc]
          exact ih _ _ _ (le_trans (min_le_right _ _) hK)
        · simp only [if_neg hc]
          exact ih _ _ _ h
    · simp only [if_neg hlr]; exact h

/-- Hour-grain version of `daySearchGo_le`. -/
theorem hourSearchGo_le (api : Api ρ) (s maxE t K : Int) (hK : maxE ≤ K) :
    ∀ (fuel : Nat) (l r opt : Int), opt ≤ K → hourSearchGo api s maxE t fuel l r opt ≤ K := by
  intro fuel
  induction fuel with
  | zero => intro l r opt h; simpa [hourSearchGo] using h
  | succ n ih =>
    intro l r opt h
    simp only [hourSearchGo]
    by_cases hlr : l ≤ r
    · simp only [if_pos hlr]
      cases hp : api.probe s (min (s + Int.fdiv (l + r) 2 * oneHour) maxE) with
      | none => exact ih _ _ _ h
      | some c =>
        by_cases hc : c ≤ t
        · simp only [if_pos hc]
          exact ih _ _ _ (le_trans (min_le_right _ _) hK)
        · simp only [if_neg hc]
          exact ih _ _ _ h
    · simp only [if_neg hlr]; exact h

/-- When every probe that answers reports a count above the target, the
day-grain search never records a new `optimal_end`. -/
theorem daySearchGo_no_update (api : Api ρ) (s maxE t : Int)
    (hbig : ∀ e c, api.probe s e = some c → t < c) :
    ∀ (fuel : Nat) (l r opt : Int), daySearchGo api s maxE t fuel l r opt = opt := by
  intro fuel
  induction fuel with
  | zero => intro l r opt; simp [daySearchGo]
  | succ n ih =>
    intro l r opt
    simp only [daySearchGo]
    by_cases hlr : l ≤ r
    · simp only [if_pos hlr]
      cases hp : api.probe s (min (s + Int.fdiv (l + r) 2 * oneDay) maxE) with
      | none => exact ih _ _ _
      | some c =>
        have : ¬ c ≤ t := not_le.mpr (hbig _ _ hp)
        simp only [if_neg this]
        exact ih _ _ _
    · simp only [if_neg hlr]

/-- The batch loop preserves the buffer/flush invariant: the buffer stays
strictly below `B` after each step and every recorded flush size is exactly
`B`. -/
theorem batchFold_inv (B : Nat) (hB : 0 < B) :
    ∀ (records : List ρ) (st : List ρ × List Nat),
      st.1.length < B → (∀ f ∈ st.2, f = B) →
      (records.foldl (batchStep B) st).1.length < B ∧
        ∀ f ∈ (records.foldl (batchStep B) st).2, f = B := by
  intro records
  induction records with
  | nil => intro st h1 h2; exact ⟨h1, h2⟩
  | cons r rest ih =>
    intro st h1 h2
    rw [List.foldl_cons]
    by_cases hfull : B ≤ st.1.length + 1
    · have hstep : batchStep B st r = ([], st.2 ++ [st.1.length + 1]) := by
        simp [batchStep, hfull]
      rw [hstep]
      refine ih _ (by simpa using hB) ?_
      intro f hf
      rcases List.mem_append.mp hf with h | h
      · exact h2 f h
      · simp only [List.mem_singleton] at h
        omega
    · have hstep : batchStep B st r = (st.1 ++ [r], st.2) := by
        simp [batchStep, hfull]
      rw [hstep]
      refine ih _ ?_ h2
      simp only [List.length_append, List.length_singleton]
      omega

/-- Inserting a fresh key into a dict appends it. -/
theorem dictInsert_of_not_mem (acc : List (String × α)) (key : String) (v : α)
    (h : ∀ p ∈ acc, p.1 ≠ key) : dictInsert acc key v = acc ++ [(key, v)] := by
  induction acc with
  | nil => rfl
  | cons p rest ih =>
    have hp : p.1 ≠ key := h p (List.mem_cons_self _ _)
    simp only [dictInsert, if_neg hp, List.cons_append]
    congr 1
    exact ih fun q hq => h q (List.mem_cons_of_mem _ hq)

/-- When the destination keys of a record are pairwise distinct and fresh
for the accumulator, the rename loop is a plain map. -/
theorem processRecord_aux (m : List (String × String)) :
    ∀ (record : List (String × α)) (acc : List (String × α)),
      (∀ kv ∈ record, ∀ p ∈ acc, p.1 ≠ mappedKey m kv.1) →
      List.Pairwise (fun a b => mappedKey m a.1 ≠ mappedKey m b.1) record →
      record.foldl (fun mr kv => dictInsert mr (mappedKey m kv.1) kv.2) acc
        = acc ++ record.map (fun kv => (mappedKey m kv.1, kv.2)) := by
  intro record
  induction record with
  | nil => intro acc _ _; simp
  | cons kv rest ih =>
    intro acc hacc hpw
    rw [List.foldl_cons]
    rw [dictInsert_of_not_mem acc (mappedKey m kv.1) kv.2
      (fun p hp => hacc kv (List.mem_cons_self _ _) p hp)]
    rw [ih (acc ++ [(mappedKey m kv.1, kv.2)]) ?_ (List.Pairwise.of_cons hpw)]
    · simp
    · intro kv2 h2 p hp
      rcases List.mem_append.mp hp with h | h
      · exact hacc kv2 (List.mem_cons_of_mem _ h2) p h
      · simp only [List.mem_singleton] at h
        rw [h]
        exact List.rel_of_pairwise_cons hpw h2

/-- `processRecord` on collision-free destination keys is the plain rename
map. -/
theorem processRecord_pairwise (m : List (String × String))
    (record : List (String × α))
    (hpw : List.Pairwise (fun a b => mappedKey m a.1 ≠ mappedKey m b.1) record) :
    processRecord m record = record.map (fun kv => (mappedKey m kv.1, kv.2)) := by
  have := processRecord_aux m record [] (by simp) hpw
  simpa [processRecord] using this

/-- A string is in `addColumn cols c` if it was added. -/
theorem mem_addColumn_self (cols : List String) (c : String) : c ∈ addColumn cols c := by
  by_cases h : c ∈ cols
  · simp [addColumn, h]
  · simp [addColumn, h]

/-- `addColumn` keeps existing columns. -/
theorem mem_addColumn_of_mem (cols : List String) (c k : String) (h : k ∈ cols) :
    k ∈ addColumn cols c := by
  by_cases hc : c ∈ cols
  · simpa [addColumn, hc] using h
  · simp only [addColumn, if_neg hc, List.mem_append]
    exact Or.inl h

/-- Every key of `dictInsert acc key v` is `key` or a key of `acc`. -/
theorem recordKeys_dictInsert (acc : List (String × α)) (key : String) (v : α) :
    ∀ k, k ∈ recordKeys (dictInsert acc key v) → k = key ∨ k ∈ recordKeys acc := by
  induction acc with
  | nil => intro k hk; simp [dictInsert, recordKeys] at hk; exact Or.inl hk
  | cons p rest ih =>
    intro k hk
    by_cases hp : p.1 = key
    · simp only [dictInsert, if_pos hp, recordKeys, List.map_cons, List.mem_cons] at hk
      rcases hk with h | h
      · exact Or.inl h
      · right
        simp only [recordKeys, List.map_cons, List.mem_cons]
        exact Or.inr (by simpa [recordKeys] using h)
    · simp only [dictInsert, if_neg hp, recordKeys, List.map_cons, List.mem_cons] at hk
      rcases hk with h | h
      · right; simp [recordKeys, h]
      · rcases ih k (by simpa [recordKeys] using h) with h2 | h2
        · exact Or.inl h2
        · right
          simp only [recordKeys, List.map_cons, List.mem_cons] at h2 ⊢
          exact Or.inr h2

/-- Every key produced by the rename loop is the image of some input key. -/
theorem recordKeys_processRecord (m : List (String × String)) :
    ∀ (record : List (String × α)) (acc : List (String × α)) (k : String),
      k ∈ recordKeys (record.foldl (fun mr kv => dictInsert mr (mappedKey m kv.1) kv.2) acc) →
      k ∈ recordKeys acc ∨ ∃ kv ∈ record, k = mappedKey m kv.1 := by
  intro record
  induction record with
  | nil => intro acc k hk; exact Or.inl hk
  | cons kv rest ih =>
    intro acc k hk
    rw [List.foldl_cons] at hk
    rcases ih _ k hk with h | h
    · rcases recordKeys_dictInsert acc (mappedKey m kv.1) kv.2 k h with h2 | h2
      · exact Or.inr ⟨kv, List.mem_cons_self _ _, h2⟩
      · exact Or.inl h2
    · rcases h with ⟨kv2, h2, h3⟩
      exact Or.inr ⟨kv2, List.mem_cons_of_mem _ h2, h3⟩

/-- Every column of a DataFrame comes from some row's key set. -/
theorem mem_columnsUnion :
    ∀ (rows : List (List (String × α))) (acc : List String) (k : String),
      k ∈ rows.foldl (fun cols record =>
          cols ++ (recordKeys record).filter (fun x => decide (x ∉ cols))) acc →
      k ∈ acc ∨ ∃ r ∈ rows, k ∈ recordKeys r := by
  intro rows
  induction rows with
  | nil => intro acc k hk; exact Or.inl hk
  | cons r rest ih =>
    intro acc k hk
    rw [List.foldl_cons] at hk
    rcases ih _ k hk with h | h
    · rcases List.mem_append.mp h with h2 | h2
      · exact Or.inl h2
      · exact Or.inr ⟨r, List.mem_cons_self _ _, (List.mem_filter.mp h2).1⟩
    · rcases h with ⟨r2, h2, h3⟩
      exact Or.inr ⟨r2, List.mem_cons_of_mem _ h2, h3⟩

/-! ### Claims -/

/-- C1: the claim says the recursive bisection recovery never nests more
than 5 levels deep and contributes an empty list at the cap.  The code
violates this: `fetch_data_from_api` re-enters
`handle_response_too_large_error` with `retry_count` left at its default
`0` (line 718), so the cap check at line 505 never fires along the
bisection path.  Against a server whose every page fetch fails with
`Response Entity Too Large` (`etlApi`) the run never returns (first and
third conjuncts: the fuel runs out) and the number of simultaneously
nested `handle_response_too_large_error` frames grows with the available
fuel — 10 frames within fuel 30, 20 within fuel 60 — far past the claimed
cap of 5, instead of an empty list being returned at depth 5. -/
theorem c1_bisection_depth_exceeds_cap :
    (fetch_data_from_api etlApi 30 0 oneDay true).1 = none ∧
    (fetch_data_from_api etlApi 30 0 oneDay true).2 = 10 ∧
    (fetch_data_from_api etlApi 60 0 oneDay true).1 = none ∧
    (fetch_data_from_api etlApi 60 0 oneDay true).2 = 20 :=
  ⟨rfl, by decide, rfl, by decide⟩

/-- C2 (counterexample): the batch `[{"id": 0}]` uploaded through the
`run_pipeline` path (`upload_batch_to_bigquery`, i.e. column mapping plus
DataFrame construction) produces exactly the column `id`: neither
`_loaded_at` nor `_pipeline_version` is added, contradicting the claim
that every submitted record carries them. -/
theorem c2_upload_lacks_metadata_columns :
    upload_batch_columns [("a", "b")] [[("id", (0 : Nat))]] = ["id"] ∧
    "_loaded_at" ∉ upload_batch_columns [("a", "b")] [[("id", (0 : Nat))]] ∧
    "_pipeline_version" ∉ upload_batch_columns [("a", "b")] [[("id", (0 : Nat))]] := by
  refine ⟨by decide, by decide, by decide⟩

/-- C2 (amended): the `_loaded_at = now()` / `_pipeline_version = "1.0.0"`
augmentation lives only in `validate_data` (lines 886-887), a function
`run_pipeline` never calls; `upload_batch_to_bigquery`, the only loader
`run_pipeline` invokes, submits exactly the columns derived from the input
records' (mapped) keys and adds nothing. -/
theorem c2_metadata_columns_only_in_validate_data :
    (∀ (α : Type) (m : List (String × String)) (data : List (List (String × α))),
        "_loaded_at" ∈ validate_data_columns m data
      ∧ "_pipeline_version" ∈ validate_data_columns m data)
    ∧ (∀ (α : Type) (m : List (String × String)) (batch : List (List (String × α)))
        (k : String), k ∈ upload_batch_columns m batch →
        ∃ record ∈ batch, ∃ kv ∈ record,
          k = if m = [] then kv.1 else mappedKey m kv.1) := by
  constructor
  · intro α m data
    exact ⟨mem_addColumn_of_mem _ _ _ (mem_addColumn_self _ _), mem_addColumn_self _ _⟩
  · intro α m batch k hk
    by_cases hm : m = []
    · simp only [upload_batch_columns, process_column_mapping, if_pos hm, columnsUnion] at hk
      rcases mem_columnsUnion batch [] k hk with h | h
      · simp at h
      · rcases h with ⟨r, hr, hkr⟩
        rcases List.mem_map.mp hkr with ⟨kv, hkv, hk2⟩
        exact ⟨r, hr, kv, hkv, by simp [hm, hk2.symm]⟩
    · simp only [upload_batch_columns, process_column_mapping, if_neg hm, columnsUnion] at hk
      rcases mem_columnsUnion _ [] k hk with h | h
      · simp at h
      · rcases h with ⟨r, hr, hkr⟩
        rcases List.mem_map.mp hr with ⟨r0, hr0, hmap⟩
        subst hmap
        rcases recordKeys_processRecord m r0 [] k (by simpa [processRecord] using hkr)
          with h2 | h2
        · simp [recordKeys] at h2
        · rcases h2 with ⟨kv, hkv, h3⟩
          exact ⟨r0, hr0, kv, hkv, by simp [hm, h3]⟩

/-- C2 (witness): the amended theorem applied at a concrete mapping and
batch. -/
theorem c2_metadata_columns_only_in_validate_data_witness :
    ("_loaded_at" ∈ validate_data_columns [("a", "b")] [[("id", (0 : Nat))]]
      ∧ "_pipeline_version" ∈ validate_data_columns [("a", "b")] [[("id", (0 : Nat))]])
    ∧ ("id" ∈ upload_batch_columns [("a", "b")] [[("id", (0 : Nat))]]
      ∧ ∃ record ∈ [[("id", (0 : Nat))]], ∃ kv ∈ record,
          "id" = if ([("a", "b")] : List (String × String)) = [] then kv.1
            else mappedKey [("a", "b")] kv.1) :=
  ⟨c2_metadata_columns_only_in_validate_data.1 Nat [("a", "b")] [[("id", (0 : Nat))]],
   by decide,
   c2_metadata_columns_only_in_validate_data.2 Nat [("a", "b")] [[("id", (0 : Nat))]] "id"
     (by decide)⟩

/-- C3 (counterexample): the claim says the planner always returns
`end ≤ hardEnd` and returns `hardEnd` unchanged whenever
`hardEnd ≤ start`.  Both fail.  With `start = hardEnd = 0` and a probe
that always fails, `find_optimal_period_end` returns the un-clamped
initial `optimal_end = start + 1 day = 86400000000 > hardEnd`.  With
`hardEnd = -1 < start = 0` and a probe always reporting 0, the one-day
check is falsy, the day count `(hardEnd - start).days + 1` is `0`, the
search loop never runs, and `start + 1 day` is returned.  With the same
inverted range and a probe reporting 10000 > ceiling, the line-257
truthiness check passes, the hour branch is entered with
`total_hours = int(negative/3600) = 0`, its loop never runs, and
`start + 1 hour = 3600000000` is returned — still above `hardEnd`. -/
theorem c3_planner_end_exceeds_hard_end :
    (find_optimal_period_end probeNoneApi 0 0 1500 = 86400000000 ∧
      ¬ find_optimal_period_end probeNoneApi 0 0 1500 ≤ 0) ∧
    (find_optimal_period_end etlApi 0 (-1) 1500 = 86400000000 ∧
      ¬ find_optimal_period_end etlApi 0 (-1) 1500 ≤ -1) ∧
    (find_optimal_period_end bigProbeApi 0 (-1) 1500 = 3600000000 ∧
      ¬ find_optimal_period_end bigProbeApi 0 (-1) 1500 ≤ -1) := by
  refine ⟨⟨by decide, by decide⟩, ⟨by decide, by decide⟩, ⟨by decide, by decide⟩⟩

/-- C3 (amended): for every start, hardEnd and probe behaviour the planner
returns `end ≤ max hardEnd (start + 1 day)`: the claimed bound `hardEnd`
holds only up to the un-clamped initial candidate `start + 1 day` (or
`start + 1 hour` at hour grain, which is smaller). -/
theorem c3_planner_end_bounded (api : Api ρ) (s maxE t : Int) :
    find_optimal_period_end api s maxE t ≤ max maxE (s + oneDay) := by
  have hday : s + oneHour ≤ s + oneDay := by
    have : oneHour ≤ oneDay := by decide
    linarith
  cases hp : api.probe s (min (s + oneDay) maxE) with
  | none =>
    simp only [find_optimal_period_end, find_optimal_period_by_day, hp]
    exact daySearchGo_le api s maxE t _ (le_max_left _ _) _ _ _ _ (le_max_right _ _)
  | some c =>
    by_cases hc : c ≠ 0 ∧ t < c
    · simp only [find_optimal_period_end, find_optimal_period_by_hour, hp, if_pos hc]
      refine hourSearchGo_le api s _ t _ ?_ _ _ _ _ ?_
      · exact le_trans (min_le_right _ _) (le_max_left _ _)
      · exact le_trans hday (le_max_right _ _)
    · simp only [find_optimal_period_end, find_optimal_period_by_day, hp, if_neg hc]
      exact daySearchGo_le api s maxE t _ (le_max_left _ _) _ _ _ _ (le_max_right _ _)

/-- C4 (counterexample): the claim says that if the first probe is absent
the planner returns `start + 1 unit` regardless of later probes.  Against
`flakyProbeApi` the first probe — on the one-day window `[0, 1 day]` — is
absent, yet the day-grain binary search goes on probing, later probes
report 100 ≤ 1500, and the planner returns `start + 4 days`, not
`start + 1 day`. -/
theorem c4_later_probes_matter :
    flakyProbeApi.probe 0 (min ((0 : Int) + oneDay) 345600000000) = none ∧
    find_optimal_period_end flakyProbeApi 0 345600000000 1500 = 345600000000 ∧
    (345600000000 : Int) ≠ 0 + oneDay :=
  ⟨rfl, by decide, by decide⟩

/-- C4 (amended): when the first probe (on the clamped one-day window) is
absent the planner takes the day-grain path, and if additionally no later
probe reports a count within the ceiling, the binary search never records
a new end and `start + 1 day` is returned; a later in-ceiling probe moves
the returned end instead. -/
theorem c4_absent_probe_progress (api : Api ρ) (s maxE : Int)
    (h1 : api.probe s (min (s + oneDay) maxE) = none)
    (h2 : ∀ e c, api.probe s e = some c → 1500 < c) :
    find_optimal_period_end api s maxE 1500 = s + oneDay := by
  simp only [find_optimal_period_end, find_optimal_period_by_day, h1]
  exact daySearchGo_no_update api s maxE 1500 h2 _ _ _ _

/-- C4 (witness): the amended theorem applied to the always-absent probe
on a two-day range. -/
theorem c4_absent_probe_progress_witness :
    probeNoneApi.probe 0 (min ((0 : Int) + oneDay) 172800000000) = none ∧
    find_optimal_period_end probeNoneApi 0 172800000000 1500 = 0 + oneDay :=
  ⟨rfl, c4_absent_probe_progress probeNoneApi 0 172800000000 rfl
    (fun _ _ h => by simp [probeNoneApi] at h)⟩

/-- C5 (counterexample): the claim covers every status in 500..599 whose
body contains "Response Entity Too Large", but the code checks
`status_code == 500` only (line 430).  A persistent 503 whose body
contains the text is retried like an ordinary server error — 4 attempts
with waits 2 s, 4 s, 8 s — and ends in `ServerError`, not in the typed
`ResponseEntityTooLargeError`. -/
theorem c5_nonretry_only_for_status_500 :
    request_with_retry (fun _ => Attempt.resp 503 true) 10
      = some (Except.error ReqErr.serverError, 4, [2, 4, 8]) := rfl

/-- C5 (amended): for a response with status exactly 500 whose body
contains "Response Entity Too Large", `request_with_retry` raises the
typed `ResponseEntityTooLargeError` on the first attempt, with no retry
and no wait at that layer. -/
theorem c5_status_500_entity_too_large (outcomes : Nat → Attempt) (fuel : Nat)
    (h : outcomes 0 = Attempt.resp 500 true) :
    request_with_retry outcomes (fuel + 1)
      = some (Except.error ReqErr.entityTooLarge, 1, []) := by
  simp [request_with_retry, requestGo, h]

/-- C5 (witness): the amended theorem applied to a constant 500 +
entity-too-large outcome. -/
theorem c5_status_500_entity_too_large_witness :
    (fun _ : Nat => Attempt.resp 500 true) 0 = Attempt.resp 500 true ∧
    request_with_retry (fun _ => Attempt.resp 500 true) (0 + 1)
      = some (Except.error ReqErr.entityTooLarge, 1, []) :=
  ⟨rfl, c5_status_500_entity_too_large (fun _ => Attempt.resp 500 true) 0 rfl⟩

/-- C6 (counterexample): the claim says `request_with_retry` makes `N = 3`
attempts in total.  Against a persistent plain 500 the attempt counter in
the result is 4 — one initial attempt plus `max_retries = 3` retries (the
loop runs for `retry_count` 0..3) — before the server-error failure. -/
theorem c6_four_attempts_not_three :
    request_with_retry (fun _ => Attempt.resp 500 false) 10
      = some (Except.error ReqErr.serverError, 4, [2, 4, 8]) := rfl

/-- C6 (amended): for a persistent 5xx response that is not the
status-500 entity-too-large case, `request_with_retry` makes 4 attempts in
total (the initial attempt plus 3 retries), waiting 2 s before the first
retry and doubling before each subsequent one (2 s, 4 s, 8 s), then fails
with a server error; the same schedule applies to connection timeouts and
connection errors. -/
theorem c6_retry_schedule :
    (∀ (fuel s : Nat) (b : Bool), 500 ≤ s → s < 600 → ¬(s = 500 ∧ b = true) →
      request_with_retry (fun _ => Attempt.resp s b) (fuel + 4)
        = some (Except.error ReqErr.serverError, 4, [2, 4, 8]))
    ∧ (∀ fuel : Nat, request_with_retry (fun _ => Attempt.timeout) (fuel + 4)
        = some (Except.error ReqErr.timeoutError, 4, [2, 4, 8]))
    ∧ (∀ fuel : Nat, request_with_retry (fun _ => Attempt.connErr) (fuel + 4)
        = some (Except.error ReqErr.connectionError, 4, [2, 4, 8])) := by
  refine ⟨?_, ?_, ?_⟩
  · intro fuel s b h5 h6 hetl
    have h1 : ¬ s < 400 := by omega
    have h2 : ¬ s < 500 := by omega
    simp [request_with_retry, requestGo, h1, h2, h6, hetl]
  · intro fuel
    simp [request_with_retry, requestGo]
  · intro fuel
    simp [request_with_retry, requestGo]

/-- C6 (witness): the amended theorem applied to a persistent plain
503. -/
theorem c6_retry_schedule_witness :
    (500 ≤ 503 ∧ 503 < 600 ∧ ¬(503 = 500 ∧ false = true)) ∧
    request_with_retry (fun _ => Attempt.resp 503 false) (0 + 4)
      = some (Except.error ReqErr.serverError, 4, [2, 4, 8]) :=
  ⟨⟨by decide, by decide, by decide⟩,
   c6_retry_schedule.1 0 503 false (by decide) (by decide) (by decide)⟩

/-- C7: `get_estimated_count` returns the `total` field when present, else
the length of the `data` field; on an error carrying a non-401 status, and
on any non-HTTP error, it returns absent (`None`); a 401 re-raises,
aborting the run instead of returning absent. -/
theorem c7_get_estimated_count_dispatch :
    (∀ (t : Int) (d : Nat),
        get_estimated_count (ProbeHttp.okJson (some t) d) = Except.ok (some t))
    ∧ (∀ d : Nat, get_estimated_count (ProbeHttp.okJson none d) = Except.ok (some (d : Int)))
    ∧ (∀ s : Nat, s ≠ 401 → get_estimated_count (ProbeHttp.httpError s) = Except.ok none)
    ∧ get_estimated_count (ProbeHttp.httpError 401) = Except.error ()
    ∧ get_estimated_count ProbeHttp.otherFailure = Except.ok none := by
  refine ⟨fun t d => rfl, fun d => rfl, fun s hs => ?_, rfl, rfl⟩
  simp [get_estimated_count, hs]

/-- C7 (witness): the dispatch theorem applied to a 500 error. -/
theorem c7_get_estimated_count_dispatch_witness :
    (500 : Nat) ≠ 401 ∧ get_estimated_count (ProbeHttp.httpError 500) = Except.ok none :=
  ⟨by decide, c7_get_estimated_count_dispatch.2.2.1 500 (by decide)⟩

/-- C8: with `batch_size = 100000` as `B`, the batch loop of
`run_pipeline` keeps the buffer strictly below `B` after every step (so at
most `B` during a step, reached exactly when a flush fires), records every
initiated flush at exactly `B` records (the residual buffer left in the
final state, flushed after the loop, excepted), and leaves the buffer
empty immediately after any flush.  Quantifying over all record lists
covers every intermediate state of a run, since the state after `k`
records is the fold over the length-`k` prefix. -/
theorem c8_batch_buffer_invariant (ρ : Type) : batch_size = 100000
    ∧ (∀ (B : Nat) (raw_data : List ρ), 0 < B →
        (run_pipeline_batches B raw_data).1.length < B ∧
          ∀ f ∈ (run_pipeline_batches B raw_data).2, f = B)
    ∧ (∀ (B : Nat) (st : List ρ × List Nat) (r : ρ), B ≤ st.1.length + 1 →
        (batchStep B st r).1 = []) := by
  refine ⟨rfl, fun B raw hB => ?_, fun B st r h => ?_⟩
  · exact batchFold_inv B hB raw ([], []) (by simpa using hB) (by simp)
  · simp [batchStep, h]

/-- C8 (witness): the invariant theorem applied at `B = 2` to a
three-record run and to one flushing step. -/
theorem c8_batch_buffer_invariant_witness :
    (0 < 2 ∧ (run_pipeline_batches 2 [0, 1, 2]).1.length < 2 ∧
      ∀ f ∈ (run_pipeline_batches 2 [0, 1, 2]).2, f = 2) ∧
    (2 ≤ ([0] : List Nat).length + 1 ∧ (batchStep 2 (([0] : List Nat), []) 1).1 = []) :=
  ⟨⟨by decide, ((c8_batch_buffer_invariant Nat).2.1 2 [0, 1, 2] (by decide)).1,
    ((c8_batch_buffer_invariant Nat).2.1 2 [0, 1, 2] (by decide)).2⟩,
   by decide, (c8_batch_buffer_invariant Nat).2.2 2 (([0] : List Nat), []) 1 (by decide)⟩

/-- C9 (counterexample): the claim covers every configured mapping and
record.  With the empty mapping (`if not self.column_mapping: return
data`, line 738) the record passes through untouched, although the
default rule would rename `lastModified` to `last_modified`; and when two
keys collide on a destination (`a ↦ x` by the mapping, `x ↦ x` by the
default rule) the first value is dropped rather than left unchanged. -/
theorem c9_empty_mapping_passthrough :
    process_column_mapping ([] : List (String × String)) [[("lastModified", (0 : Nat))]]
      = [[("lastModified", 0)]] ∧
    camelToSnake "lastModified" = "last_modified" ∧
    process_column_mapping [("a", "x")] [[("a", (1 : Nat)), ("x", 2)]] = [[("x", 2)]] := by
  refine ⟨by decide, by decide, by decide⟩

/-- C9 (amended): for every nonempty mapping and every record whose keys
rename to pairwise-distinct destination keys, `process_column_mapping`
renames each top-level key `k` to `mapping[k]` when `k` is in the mapping
and otherwise to the camelCase-to-snake_case default (`mappedKey`),
leaving values unchanged; the default rule sends `lastModified` to
`last_modified` and `primaryCategoryID` to `primary_category_i_d`. -/
theorem c9_rename_rule :
    (∀ (α : Type) (m : List (String × String)) (data : List (List (String × α))),
        m ≠ [] →
        (∀ record ∈ data,
          List.Pairwise (fun a b => mappedKey m a.1 ≠ mappedKey m b.1) record) →
        process_column_mapping m data
          = data.map (fun record => record.map (fun kv => (mappedKey m kv.1, kv.2))))
    ∧ camelToSnake "lastModified" = "last_modified"
    ∧ camelToSnake "primaryCategoryID" = "primary_category_i_d" := by
  refine ⟨?_, by decide, by decide⟩
  intro α m data hm hpw
  simp only [process_column_mapping, if_neg hm]
  exact List.map_congr_left fun r hr => processRecord_pairwise m r (hpw r hr)

/-- C9 (witness): the rename theorem applied to a concrete mapping and a
two-column record. -/
theorem c9_rename_rule_witness :
    (([("lastModified", "last_modified")] : List (String × String)) ≠ [] ∧
      ∀ record ∈ [[("lastModified", (7 : Nat)), ("creationDate", 8)]],
        List.Pairwise (fun a b =>
          mappedKey [("lastModified", "last_modified")] a.1
            ≠ mappedKey [("lastModified", "last_modified")] b.1) record) ∧
    process_column_mapping [("lastModified", "last_modified")]
        [[("lastModified", (7 : Nat)), ("creationDate", 8)]]
      = [[("lastModified", (7 : Nat)), ("creationDate", 8)]].map
          (fun record => record.map (fun kv =>
            (mappedKey [("lastModified", "last_modified")] kv.1, kv.2))) :=
  ⟨⟨by decide, by decide⟩,
   c9_rename_rule.1 Nat [("lastModified", "last_modified")]
     [[("lastModified", (7 : Nat)), ("creationDate", 8)]] (by decide) (by decide)⟩

/-- C10: when two distinct keys of one record are renamed to the same
destination key, the rebuilt dict keeps only the value of the key iterated
last (the Python dict assignment overwrites), so the earlier field is
silently dropped. -/
theorem c10_collision_last_key_wins (α : Type) (m : List (String × String)) (hm : m ≠ [])
    (k1 k2 : String) (v1 v2 : α) (hne : k1 ≠ k2)
    (hcol : mappedKey m k1 = mappedKey m k2) :
    process_column_mapping m [[(k1, v1), (k2, v2)]] = [[(mappedKey m k2, v2)]] := by
  simp only [process_column_mapping, if_neg hm, List.map_cons, List.map_nil]
  simp [processRecord, dictInsert, hcol]

/-- C10 (witness): the collision theorem at the mapping `a ↦ x` with the
colliding keys `a` and `x`. -/
theorem c10_collision_last_key_wins_witness :
    (([("a", "x")] : List (String × String)) ≠ [] ∧ "a" ≠ "x" ∧
      mappedKey [("a", "x")] "a" = mappedKey [("a", "x")] "x") ∧
    process_column_mapping [("a", "x")] [[("a", (1 : Nat)), ("x", 2)]]
      = [[(mappedKey [("a", "x")] "x", 2)]] :=
  ⟨⟨by decide, by decide, by decide⟩,
   c10_collision_last_key_wins Nat [("a", "x")] (by decide) "a" "x" 1 2 (by decide)
     (by decide)⟩

end Pipeline
